import Mathlib

/-!
Verification of the SkillSwap rating/settlement engine.

This file is a shallow embedding of the `rate_session` endpoint of
`src/main.py` (the "Session Settlement Engine" of the design spec),
together with the document-store operations it relies on, and proofs of
the specified properties.

Modelling conventions:
* The MongoDB collections `user`, `session`, `rating` become a `DB`
  structure: `user` and `session` are keyed maps `String → Option doc`
  (keyed by the canonical 24-hex-character ObjectId string), `rating`
  is a list (ratings are inserted and never looked up by id).
* `bson.ObjectId(s)` (third-party, not in the repository) accepts a
  24-character hexadecimal string and is case-insensitive; `oid` models
  it as `Option`-valued validation returning the lowercased canonical
  key, `none` standing for the `HTTPException(400, "Invalid object id")`
  raised by the helper `oid` of `src/main.py`.
* Python `float` is modelled as `ℚ`, Python `int` as `ℤ`, timestamps
  (`now_utc()`) as an abstract `Nat` supplied by the caller.
* `HTTPException` aborts the request but rolls nothing back, so
  `rate_session` returns both the outcome and the (possibly partially
  mutated) database state.
* Mongo `update_one` with `$set` / `$inc` filters on `_id` and is a
  no-op when no document matches; `updateOne` models exactly that.
* Python truthiness of the stored id strings (`if teacher_id and
  learner_id`) becomes inequality with the empty string.
-/

namespace SkillSwap

/-- A hexadecimal digit, as accepted by `bson.ObjectId`. -/
def hexDigit (c : Char) : Bool :=
  c.isDigit || (decide ('a' ≤ c) && decide (c ≤ 'f')) || (decide ('A' ≤ c) && decide (c ≤ 'F'))

/-- Validity of an ObjectId string: exactly 24 hexadecimal characters. -/
def validObjectId (s : String) : Bool :=
  s.length == 24 && s.data.all hexDigit

/-- Charwise ASCII lowercasing, giving the canonical spelling of a hex id. -/
def lowerAscii (s : String) : String := String.mk (s.data.map Char.toLower)

/-- The helper `oid` of `src/main.py`: converts an id string to the document
key, failing (modelled by `none`, standing for HTTP 400 "Invalid object id")
when the string is not a well-formed ObjectId.  The canonical key is the
lowercased hex string, since `ObjectId` is case-insensitive. -/
def oid (s : String) : Option String :=
  if validObjectId s then some (lowerAscii s) else none

/-- A keyed document collection of the abstract store. -/
abbrev Collection (α : Type) := String → Option α

/-- `find_one({"_id": k})`. -/
def findOne {α : Type} (c : Collection α) (k : String) : Option α := c k

/-- `update_one({"_id": k}, ...)` applying `f` to the matched document;
a no-op when no document has key `k`. -/
def updateOne {α : Type} (c : Collection α) (k : String) (f : α → α) : Collection α :=
  fun q => if q = k then (c q).map f else c q

/-- The fields of a `user` document touched by the settlement engine
(schema `User` of `src/schemas.py`). -/
structure UserDoc where
  coins : ℤ
  rating_avg : ℚ
  rating_count : ℤ
  badges : List String
  teaching_sessions : ℤ
  learning_sessions : ℤ
  deriving DecidableEq

/-- A `session` document (schema `Session` of `src/schemas.py`). -/
structure SessionDoc where
  chat_id : String
  teacher_id : String
  learner_id : String
  duration : ℤ
  scheduled_time : String
  status : String
  updated_at : Nat
  deriving DecidableEq

/-- A `rating` document (schema `Rating` of `src/schemas.py`). -/
structure RatingDoc where
  session_id : String
  rater_id : String
  ratee_id : String
  score : ℤ
  feedback : Option String
  created_at : Nat
  deriving DecidableEq

/-- The request body `RatingRequest` of `src/main.py`. -/
structure RatingRequest where
  session_id : String
  rater_id : String
  ratee_id : String
  score : ℤ
  feedback : Option String
  deriving DecidableEq

/-- The document store: collections `user`, `session`, `rating`. -/
structure DB where
  users : Collection UserDoc
  sessions : Collection SessionDoc
  ratings : List RatingDoc

/-- Errors surfaced by `rate_session` (`HTTPException` status codes). -/
inductive ApiError where
  | invalidArgument : String → ApiError
  | notFound : String → ApiError
  deriving DecidableEq

deriving instance DecidableEq for Except

/-- The `Rating(...)` document built at lines 319–326 of `src/main.py`. -/
def ratingOfRequest (req : RatingRequest) (now : Nat) : RatingDoc :=
  { session_id := req.session_id
    rater_id := req.rater_id
    ratee_id := req.ratee_id
    score := req.score
    feedback := req.feedback
    created_at := now }

/-- Step 1: `db["rating"].insert_one(rating.model_dump())` (line 327). -/
def insertRating (req : RatingRequest) (now : Nat) (db : DB) : DB :=
  { db with ratings := db.ratings ++ [ratingOfRequest req now] }

/-- Steps 2–3: the ratee rating update (lines 330–335): load the ratee,
silently skip when absent, otherwise persist the incremented count and the
recomputed running average in one `$set`. -/
def updateRateeRating (rateeKey : String) (score : ℤ) (db : DB) : DB :=
  match findOne db.users rateeKey with
  | none => db
  | some u =>
      let count : ℤ := u.rating_count + 1
      let new_avg : ℚ := (u.rating_avg * ((count : ℚ) - 1) + (score : ℚ)) / (count : ℚ)
      let users1 := updateOne db.users rateeKey
        (fun v => { v with rating_avg := new_avg, rating_count := count })
      { db with users := users1 }

/-- Line 341: `$inc {coins: 10, teaching_sessions: 1}` on the teacher. -/
def applyTeacherInc (tKey : String) (db : DB) : DB :=
  let users1 := updateOne db.users tKey
    (fun v => { v with coins := v.coins + 10, teaching_sessions := v.teaching_sessions + 1 })
  { db with users := users1 }

/-- Line 342: `$inc {coins: -10, learning_sessions: 1}` on the learner. -/
def applyLearnerInc (lKey : String) (db : DB) : DB :=
  let users1 := updateOne db.users lKey
    (fun v => { v with coins := v.coins - 10, learning_sessions := v.learning_sessions + 1 })
  { db with users := users1 }

/-- Line 345: `$set {status: "completed", updated_at: now}` on the session. -/
def completeSession (sKey : String) (now : Nat) (db : DB) : DB :=
  let sessions1 := updateOne db.sessions sKey
    (fun s => { s with status := "completed", updated_at := now })
  { db with sessions := sessions1 }

/-- Adding one label to the set of badges (`set.add` on a Python set,
rendered as an order-preserving duplicate-free append). -/
def insertBadge (l : List String) (b : String) : List String :=
  if b ∈ l then l else l ++ [b]

/-- Lines 350–356: the badge set computed for the (re-loaded) teacher
document `t`: the existing badges together with every qualifying label. -/
def computeBadges (t : UserDoc) : List String :=
  let b0 := t.badges
  let b1 := if 10 ≤ t.teaching_sessions then insertBadge b0 "Top Mentor" else b0
  let b2 := if 5 ≤ t.learning_sessions + t.teaching_sessions then insertBadge b1 "Skill Streak" else b1
  if (4.5 : ℚ) < t.rating_avg then insertBadge b2 "Helpful Teacher" else b2

/-- Lines 348–357 for a well-formed teacher key: re-load the teacher and, if
present, overwrite its badge list with the recomputed set. -/
def applyBadges (tKey : String) (db : DB) : DB :=
  match findOne db.users tKey with
  | none => db
  | some t =>
      let users1 := updateOne db.users tKey (fun v => { v with badges := computeBadges t })
      { db with users := users1 }

/-- Lines 337–342 ("Coins logic"): when both stored ids are truthy, apply the
teacher increment and then the learner increment.  Each `oid` conversion of a
stored id raises (an error is returned) when the id string is truthy but
malformed, keeping the mutations already made. -/
def coinsStage (sd : SessionDoc) (db : DB) : Option ApiError × DB :=
  if sd.teacher_id ≠ "" ∧ sd.learner_id ≠ "" then
    match oid sd.teacher_id with
    | none => (some (ApiError.invalidArgument "Invalid object id"), db)
    | some tKey =>
        match oid sd.learner_id with
        | none => (some (ApiError.invalidArgument "Invalid object id"), applyTeacherInc tKey db)
        | some lKey => (none, applyLearnerInc lKey (applyTeacherInc tKey db))
  else (none, db)

/-- Lines 347–357 ("Badges"): when the stored teacher id is truthy, re-load
the teacher document and, if present, persist its recomputed badge set. -/
def badgeCheck (sd : SessionDoc) (db : DB) : Except ApiError Unit × DB :=
  if sd.teacher_id ≠ "" then
    match oid sd.teacher_id with
    | none => (Except.error (ApiError.invalidArgument "Invalid object id"), db)
    | some tKey => (Except.ok (), applyBadges tKey db)
  else (Except.ok (), db)

/-- Lines 337–359 of `rate_session`, after the rating insert and the ratee
update: the coins logic, then the unconditional session completion, then the
badge recompute. -/
def settleAfterRating (sd : SessionDoc) (sKey : String) (now : Nat) (db : DB) :
    Except ApiError Unit × DB :=
  match coinsStage sd db with
  | (some e, db1) => (Except.error e, db1)
  | (none, db1) => badgeCheck sd (completeSession sKey now db1)

/-- The endpoint `rate_session` of `src/main.py` (lines 308–359), over a
configured store.  Returns the outcome together with the final database
state; on an error the state keeps every mutation made before the raise. -/
def rate_session (req : RatingRequest) (now : Nat) (db : DB) :
    Except ApiError Unit × DB :=
  if ¬ (1 ≤ req.score ∧ req.score ≤ 5) then
    (Except.error (ApiError.invalidArgument "Score must be 1-5"), db)
  else
    match oid req.session_id with
    | none => (Except.error (ApiError.invalidArgument "Invalid object id"), db)
    | some sKey =>
        match findOne db.sessions sKey with
        | none => (Except.error (ApiError.notFound "Session not found"), db)
        | some sd =>
            let db1 := insertRating req now db
            match oid req.ratee_id with
            | none => (Except.error (ApiError.invalidArgument "Invalid object id"), db1)
            | some rKey =>
                let db2 := updateRateeRating rKey req.score db1
                settleAfterRating sd sKey now db2

/-- The database state right before the badge step on the full success path:
rating inserted, ratee updated, both increments applied, session completed. -/
def preBadgeState (req : RatingRequest) (now : Nat) (db : DB)
    (sKey rKey tKey lKey : String) : DB :=
  completeSession sKey now
    (applyLearnerInc lKey
      (applyTeacherInc tKey
        (updateRateeRating rKey req.score
          (insertRating req now db))))

/-- The rating statistics of a user document: running average and count. -/
def ratingStats (u : UserDoc) : ℚ × ℤ := (u.rating_avg, u.rating_count)

/-- The reward counters of a user document: coins, teaching sessions and
learning sessions. -/
def coinStats (u : UserDoc) : ℤ × ℤ × ℤ := (u.coins, u.teaching_sessions, u.learning_sessions)

/-- Every badge present in `db1` survives into `db2`. -/
def badgePreserved (db1 db2 : DB) : Prop :=
  ∀ q u b, db1.users q = some u → b ∈ u.badges →
    ∃ v, db2.users q = some v ∧ b ∈ v.badges

/-- The database state after a sequence of `rate_session` calls. -/
def runCalls (calls : List (RatingRequest × Nat)) (db : DB) : DB :=
  calls.foldl (fun d c => (rate_session c.1 c.2 d).2) db

/-! ### Concrete fixtures used to witness the theorems -/

def witKeyS : String := "aaaaaaaaaaaaaaaaaaaaaaaa"

def witKeyT : String := "bbbbbbbbbbbbbbbbbbbbbbbb"

def witKeyL : String := "cccccccccccccccccccccccc"

def witKeyR : String := "dddddddddddddddddddddddd"

/-- A well-formed user id with no matching user document. -/
def witKeyX : String := "eeeeeeeeeeeeeeeeeeeeeeee"

def witSession : SessionDoc :=
  { chat_id := "chat-1", teacher_id := witKeyT, learner_id := witKeyL, duration := 60
    scheduled_time := "2025-01-01T10:00", status := "scheduled", updated_at := 0 }

def witTeacher : UserDoc :=
  { coins := 20, rating_avg := 5, rating_count := 5, badges := ["Early Bird"]
    teaching_sessions := 9, learning_sessions := 0 }

def witLearner : UserDoc :=
  { coins := 20, rating_avg := 0, rating_count := 0, badges := []
    teaching_sessions := 0, learning_sessions := 0 }

def witRatee : UserDoc :=
  { coins := 20, rating_avg := 4, rating_count := 2, badges := []
    teaching_sessions := 0, learning_sessions := 0 }

def witDB : DB :=
  { users := fun k =>
      if k = witKeyT then some witTeacher
      else if k = witKeyL then some witLearner
      else if k = witKeyR then some witRatee
      else none
    sessions := fun k => if k = witKeyS then some witSession else none
    ratings := [] }

def witReq : RatingRequest :=
  { session_id := witKeyS, rater_id := witKeyX, ratee_id := witKeyR, score := 5, feedback := none }

/-- A request whose ratee id is well-formed but matches no user document. -/
def witReqNoRatee : RatingRequest :=
  { session_id := witKeyS, rater_id := witKeyL, ratee_id := witKeyX, score := 4, feedback := none }

/-- A store holding only the session document, no user documents at all. -/
def witEmptyUsersDB : DB :=
  { users := fun _ => none
    sessions := fun k => if k = witKeyS then some witSession else none
    ratings := [] }

/-- A request carrying a malformed rater id (and nothing else wrong). -/
def witBadRaterReq : RatingRequest :=
  { session_id := witKeyS, rater_id := "not-a-valid-object-id", ratee_id := witKeyR
    score := 5, feedback := none }

/-- A request carrying a malformed ratee id (and nothing else wrong). -/
def witBadRateeReq : RatingRequest :=
  { session_id := witKeyS, rater_id := witKeyL, ratee_id := "zz", score := 5, feedback := none }

/-- A request with an out-of-range score. -/
def witBadScoreReq : RatingRequest := { witReq with score := 6 }

/-- A request whose (well-formed) session id matches no session document. -/
def witNoSessionReq : RatingRequest := { witReq with session_id := witKeyX }

/-- The witness teacher as re-loaded after the coin/counter increments. -/
def witTeacherMid : UserDoc :=
  { coins := 30, rating_avg := 5, rating_count := 5, badges := ["Early Bird"]
    teaching_sessions := 10, learning_sessions := 0 }

/-! ### Pointwise read lemmas for the individual settlement steps -/

theorem users_insertRating (req : RatingRequest) (now : Nat) (db : DB) :
    (insertRating req now db).users = db.users := rfl

theorem sessions_insertRating (req : RatingRequest) (now : Nat) (db : DB) :
    (insertRating req now db).sessions = db.sessions := rfl

theorem ratings_insertRating (req : RatingRequest) (now : Nat) (db : DB) :
    (insertRating req now db).ratings = db.ratings ++ [ratingOfRequest req now] := rfl

theorem updateRateeRating_absent {rKey : String} {db : DB} (s : ℤ)
    (h : db.users rKey = none) : updateRateeRating rKey s db = db := by
  unfold updateRateeRating
  simp [findOne, h]

theorem users_updateRateeRating_present {rKey : String} {db : DB} {u : UserDoc} (s : ℤ)
    (h : db.users rKey = some u) (q : String) :
    (updateRateeRating rKey s db).users q =
      if q = rKey then
        some { u with
          rating_avg := (u.rating_avg * (((u.rating_count + 1 : ℤ) : ℚ) - 1) + (s : ℚ)) /
            ((u.rating_count + 1 : ℤ) : ℚ)
          rating_count := u.rating_count + 1 }
      else db.users q := by
  unfold updateRateeRating
  simp only [findOne, h, updateOne]
  by_cases hq : q = rKey
  · subst hq; simp [h]
  · simp [hq]

theorem sessions_updateRateeRating (rKey : String) (s : ℤ) (db : DB) :
    (updateRateeRating rKey s db).sessions = db.sessions := by
  unfold updateRateeRating
  cases h : findOne db.users rKey <;> rfl

theorem ratings_updateRateeRating (rKey : String) (s : ℤ) (db : DB) :
    (updateRateeRating rKey s db).ratings = db.ratings := by
  unfold updateRateeRating
  cases h : findOne db.users rKey <;> rfl

theorem users_applyTeacherInc (tKey : String) (db : DB) (q : String) :
    (applyTeacherInc tKey db).users q =
      if q = tKey then
        (db.users q).map (fun v =>
          { v with coins := v.coins + 10, teaching_sessions := v.teaching_sessions + 1 })
      else db.users q := rfl

theorem sessions_applyTeacherInc (tKey : String) (db : DB) :
    (applyTeacherInc tKey db).sessions = db.sessions := rfl

theorem ratings_applyTeacherInc (tKey : String) (db : DB) :
    (applyTeacherInc tKey db).ratings = db.ratings := rfl

theorem users_applyLearnerInc (lKey : String) (db : DB) (q : String) :
    (applyLearnerInc lKey db).users q =
      if q = lKey then
        (db.users q).map (fun v =>
          { v with coins := v.coins - 10, learning_sessions := v.learning_sessions + 1 })
      else db.users q := rfl

theorem sessions_applyLearnerInc (lKey : String) (db : DB) :
    (applyLearnerInc lKey db).sessions = db.sessions := rfl

theorem ratings_applyLearnerInc (lKey : String) (db : DB) :
    (applyLearnerInc lKey db).ratings = db.ratings := rfl

theorem users_completeSession (sKey : String) (now : Nat) (db : DB) :
    (completeSession sKey now db).users = db.users := rfl

theorem ratings_completeSession (sKey : String) (now : Nat) (db : DB) :
    (completeSession sKey now db).ratings = db.ratings := rfl

theorem sessions_completeSession (sKey : String) (now : Nat) (db : DB) (q : String) :
    (completeSession sKey now db).sessions q =
      if q = sKey then
        (db.sessions q).map (fun s => { s with status := "completed", updated_at := now })
      else db.sessions q := rfl

theorem applyBadges_absent {tKey : String} {db : DB}
    (h : db.users tKey = none) : applyBadges tKey db = db := by
  unfold applyBadges
  simp [findOne, h]

theorem users_applyBadges_present {tKey : String} {db : DB} {t : UserDoc}
    (h : db.users tKey = some t) (q : String) :
    (applyBadges tKey db).users q =
      if q = tKey then some { t with badges := computeBadges t } else db.users q := by
  unfold applyBadges
  simp only [findOne, h, updateOne]
  by_cases hq : q = tKey
  · subst hq; simp [h]
  · simp [hq]

theorem sessions_applyBadges (tKey : String) (db : DB) :
    (applyBadges tKey db).sessions = db.sessions := by
  unfold applyBadges
  cases h : findOne db.users tKey <;> rfl

theorem ratings_applyBadges (tKey : String) (db : DB) :
    (applyBadges tKey db).ratings = db.ratings := by
  unfold applyBadges
  cases h : findOne db.users tKey <;> rfl

/-! ### Branch lemmas for `rate_session` -/

theorem rate_session_bad_score {req : RatingRequest} {now : Nat} {db : DB}
    (h : ¬ (1 ≤ req.score ∧ req.score ≤ 5)) :
    rate_session req now db =
      (Except.error (ApiError.invalidArgument "Score must be 1-5"), db) := by
  unfold rate_session
  rw [if_pos h]

theorem rate_session_bad_session_id {req : RatingRequest} {now : Nat} {db : DB}
    (hs : 1 ≤ req.score ∧ req.score ≤ 5) (h : oid req.session_id = none) :
    rate_session req now db =
      (Except.error (ApiError.invalidArgument "Invalid object id"), db) := by
  unfold rate_session
  rw [if_neg (by simp [hs.1, hs.2])]
  rw [h]

theorem rate_session_no_session {req : RatingRequest} {now : Nat} {db : DB} {sKey : String}
    (hs : 1 ≤ req.score ∧ req.score ≤ 5) (hsid : oid req.session_id = some sKey)
    (h : db.sessions sKey = none) :
    rate_session req now db = (Except.error (ApiError.notFound "Session not found"), db) := by
  unfold rate_session
  rw [if_neg (by simp [hs.1, hs.2])]
  simp only [findOne, hsid, h]

theorem rate_session_bad_ratee_id {req : RatingRequest} {now : Nat} {db : DB}
    {sKey : String} {sd : SessionDoc}
    (hs : 1 ≤ req.score ∧ req.score ≤ 5) (hsid : oid req.session_id = some sKey)
    (hsess : db.sessions sKey = some sd) (h : oid req.ratee_id = none) :
    rate_session req now db =
      (Except.error (ApiError.invalidArgument "Invalid object id"), insertRating req now db) := by
  unfold rate_session
  rw [if_neg (by simp [hs.1, hs.2])]
  simp only [findOne, hsid, hsess, h]

theorem settleAfterRating_success {sd : SessionDoc} {sKey : String} {now : Nat} {db : DB}
    {tKey lKey : String}
    (ht : sd.teacher_id ≠ "") (hl : sd.learner_id ≠ "")
    (htid : oid sd.teacher_id = some tKey) (hlid : oid sd.learner_id = some lKey) :
    settleAfterRating sd sKey now db =
      (Except.ok (),
        applyBadges tKey (completeSession sKey now (applyLearnerInc lKey (applyTeacherInc tKey db)))) := by
  unfold settleAfterRating coinsStage badgeCheck
  rw [if_pos ⟨ht, hl⟩, htid, hlid]
  simp only
  rw [if_pos ht]

theorem rate_session_success {req : RatingRequest} {now : Nat} {db : DB}
    {sKey : String} {sd : SessionDoc} {rKey tKey lKey : String}
    (hs : 1 ≤ req.score ∧ req.score ≤ 5) (hsid : oid req.session_id = some sKey)
    (hsess : db.sessions sKey = some sd) (hrid : oid req.ratee_id = some rKey)
    (ht : sd.teacher_id ≠ "") (hl : sd.learner_id ≠ "")
    (htid : oid sd.teacher_id = some tKey) (hlid : oid sd.learner_id = some lKey) :
    rate_session req now db =
      (Except.ok (), applyBadges tKey (preBadgeState req now db sKey rKey tKey lKey)) := by
  unfold rate_session
  rw [if_neg (by simp [hs.1, hs.2])]
  simp only [findOne, hsid, hsess, hrid]
  rw [settleAfterRating_success ht hl htid hlid]
  rfl

/-! ### Badge set lemmas -/

theorem mem_insertBadge {l : List String} {b q : String} :
    q ∈ insertBadge l b ↔ q ∈ l ∨ q = b := by
  unfold insertBadge
  split
  · rename_i h
    exact ⟨fun hq => Or.inl hq, fun hq => hq.elim id (fun e => e ▸ h)⟩
  · simp

theorem mem_computeBadges (t : UserDoc) (q : String) :
    q ∈ computeBadges t ↔
      q ∈ t.badges ∨
      (q = "Top Mentor" ∧ 10 ≤ t.teaching_sessions) ∨
      (q = "Skill Streak" ∧ 5 ≤ t.learning_sessions + t.teaching_sessions) ∨
      (q = "Helpful Teacher" ∧ (4.5 : ℚ) < t.rating_avg) := by
  by_cases h1 : 10 ≤ t.teaching_sessions <;>
    by_cases h2 : 5 ≤ t.learning_sessions + t.teaching_sessions <;>
      by_cases h3 : (4.5 : ℚ) < t.rating_avg <;>
        simp [computeBadges, mem_insertBadge, h1, h2, h3] <;> tauto

theorem mem_computeBadges_of_mem {t : UserDoc} {q : String} (h : q ∈ t.badges) :
    q ∈ computeBadges t :=
  (mem_computeBadges t q).mpr (Or.inl h)

/-! ### Preservation of the rating statistics by the post-rating steps -/

theorem ratingStats_applyTeacherInc (tKey : String) (db : DB) (q : String) :
    ((applyTeacherInc tKey db).users q).map ratingStats = (db.users q).map ratingStats := by
  rw [users_applyTeacherInc]
  by_cases h : q = tKey
  · rw [if_pos h]; cases db.users q <;> rfl
  · rw [if_neg h]

theorem ratingStats_applyLearnerInc (lKey : String) (db : DB) (q : String) :
    ((applyLearnerInc lKey db).users q).map ratingStats = (db.users q).map ratingStats := by
  rw [users_applyLearnerInc]
  by_cases h : q = lKey
  · rw [if_pos h]; cases db.users q <;> rfl
  · rw [if_neg h]

theorem ratingStats_applyBadges (tKey : String) (db : DB) (q : String) :
    ((applyBadges tKey db).users q).map ratingStats = (db.users q).map ratingStats := by
  cases h : db.users tKey with
  | none => rw [applyBadges_absent h]
  | some t =>
      rw [users_applyBadges_present h]
      by_cases hq : q = tKey
      · rw [if_pos hq, hq, h]; rfl
      · rw [if_neg hq]

theorem ratingStats_coinsStage (sd : SessionDoc) (db : DB) (q : String) :
    (((coinsStage sd db).2).users q).map ratingStats = (db.users q).map ratingStats := by
  unfold coinsStage
  by_cases hc : sd.teacher_id ≠ "" ∧ sd.learner_id ≠ ""
  · rw [if_pos hc]
    cases htid : oid sd.teacher_id with
    | none => rfl
    | some tKey =>
        cases hlid : oid sd.learner_id with
        | none =>
            show ((applyTeacherInc tKey db).users q).map ratingStats = _
            rw [ratingStats_applyTeacherInc]
        | some lKey =>
            show ((applyLearnerInc lKey (applyTeacherInc tKey db)).users q).map ratingStats = _
            rw [ratingStats_applyLearnerInc, ratingStats_applyTeacherInc]
  · rw [if_neg hc]

theorem ratingStats_badgeCheck (sd : SessionDoc) (db : DB) (q : String) :
    (((badgeCheck sd db).2).users q).map ratingStats = (db.users q).map ratingStats := by
  unfold badgeCheck
  by_cases ht : sd.teacher_id ≠ ""
  · rw [if_pos ht]
    cases htid : oid sd.teacher_id with
    | none => rfl
    | some tKey =>
        show ((applyBadges tKey db).users q).map ratingStats = _
        rw [ratingStats_applyBadges]
  · rw [if_neg ht]

theorem ratingStats_settleAfterRating (sd : SessionDoc) (sKey : String) (now : Nat)
    (db : DB) (q : String) :
    (((settleAfterRating sd sKey now db).2).users q).map ratingStats =
      (db.users q).map ratingStats := by
  unfold settleAfterRating
  cases hcs : coinsStage sd db with
  | mk e db1 =>
      cases e with
      | none =>
          simp only
          rw [ratingStats_badgeCheck, users_completeSession]
          have := ratingStats_coinsStage sd db q
          rw [hcs] at this
          exact this
      | some err =>
          have := ratingStats_coinsStage sd db q
          rw [hcs] at this
          exact this

/-! ### Badge monotonicity of the individual steps -/

theorem badgePreserved_of_users_eq {db1 db2 : DB} (h : db2.users = db1.users) :
    badgePreserved db1 db2 :=
  fun q u b hu hb => ⟨u, by rw [h]; exact hu, hb⟩

theorem badgePreserved_trans {db1 db2 db3 : DB}
    (h12 : badgePreserved db1 db2) (h23 : badgePreserved db2 db3) :
    badgePreserved db1 db3 := by
  intro q u b hu hb
  obtain ⟨v, hv, hbv⟩ := h12 q u b hu hb
  exact h23 q v b hv hbv

theorem badgePreserved_updateRateeRating (rKey : String) (s : ℤ) (db : DB) :
    badgePreserved db (updateRateeRating rKey s db) := by
  intro q u b hu hb
  cases h : db.users rKey with
  | none => rw [updateRateeRating_absent s h]; exact ⟨u, hu, hb⟩
  | some w =>
      rw [users_updateRateeRating_present s h]
      by_cases hq : q = rKey
      · subst hq
        rw [h] at hu
        cases hu
        exact ⟨_, if_pos rfl, hb⟩
      · rw [if_neg hq]; exact ⟨u, hu, hb⟩

theorem badgePreserved_applyTeacherInc (tKey : String) (db : DB) :
    badgePreserved db (applyTeacherInc tKey db) := by
  intro q u b hu hb
  rw [users_applyTeacherInc]
  by_cases hq : q = tKey
  · rw [if_pos hq, hu]; exact ⟨_, rfl, hb⟩
  · rw [if_neg hq]; exact ⟨u, hu, hb⟩

theorem badgePreserved_applyLearnerInc (lKey : String) (db : DB) :
    badgePreserved db (applyLearnerInc lKey db) := by
  intro q u b hu hb
  rw [users_applyLearnerInc]
  by_cases hq : q = lKey
  · rw [if_pos hq, hu]; exact ⟨_, rfl, hb⟩
  · rw [if_neg hq]; exact ⟨u, hu, hb⟩

theorem badgePreserved_completeSession (sKey : String) (now : Nat) (db : DB) :
    badgePreserved db (completeSession sKey now db) :=
  badgePreserved_of_users_eq (users_completeSession sKey now db)

theorem badgePreserved_applyBadges (tKey : String) (db : DB) :
    badgePreserved db (applyBadges tKey db) := by
  intro q u b hu hb
  cases h : db.users tKey with
  | none => rw [applyBadges_absent h]; exact ⟨u, hu, hb⟩
  | some t =>
      rw [users_applyBadges_present h]
      by_cases hq : q = tKey
      · subst hq
        rw [h] at hu
        cases hu
        exact ⟨_, if_pos rfl, mem_computeBadges_of_mem hb⟩
      · rw [if_neg hq]; exact ⟨u, hu, hb⟩

theorem badgePreserved_coinsStage (sd : SessionDoc) (db : DB) :
    badgePreserved db ((coinsStage sd db).2) := by
  unfold coinsStage
  by_cases hc : sd.teacher_id ≠ "" ∧ sd.learner_id ≠ ""
  · rw [if_pos hc]
    cases htid : oid sd.teacher_id with
    | none => exact fun q u b hu hb => ⟨u, hu, hb⟩
    | some tKey =>
        cases hlid : oid sd.learner_id with
        | none => exact badgePreserved_applyTeacherInc tKey db
        | some lKey =>
            exact badgePreserved_trans (badgePreserved_applyTeacherInc tKey db)
              (badgePreserved_applyLearnerInc lKey _)
  · rw [if_neg hc]
    exact fun q u b hu hb => ⟨u, hu, hb⟩

theorem badgePreserved_badgeCheck (sd : SessionDoc) (db : DB) :
    badgePreserved db ((badgeCheck sd db).2) := by
  unfold badgeCheck
  by_cases ht : sd.teacher_id ≠ ""
  · rw [if_pos ht]
    cases htid : oid sd.teacher_id with
    | none => exact fun q u b hu hb => ⟨u, hu, hb⟩
    | some tKey => exact badgePreserved_applyBadges tKey db
  · rw [if_neg ht]
    exact fun q u b hu hb => ⟨u, hu, hb⟩

theorem badgePreserved_settleAfterRating (sd : SessionDoc) (sKey : String) (now : Nat)
    (db : DB) : badgePreserved db ((settleAfterRating sd sKey now db).2) := by
  unfold settleAfterRating
  cases hcs : coinsStage sd db with
  | mk e db1 =>
      have h1 : badgePreserved db db1 := by
        have := badgePreserved_coinsStage sd db
        rw [hcs] at this
        exact this
      cases e with
      | none =>
          simp only
          exact badgePreserved_trans h1
            (badgePreserved_trans (badgePreserved_completeSession sKey now db1)
              (badgePreserved_badgeCheck sd _))
      | some err => exact h1

theorem badgePreserved_rate_session (req : RatingRequest) (now : Nat) (db : DB) :
    badgePreserved db ((rate_session req now db).2) := by
  unfold rate_session
  by_cases hs : ¬ (1 ≤ req.score ∧ req.score ≤ 5)
  · rw [if_pos hs]
    exact fun q u b hu hb => ⟨u, hu, hb⟩
  · rw [if_neg hs]
    cases hsid : oid req.session_id with
    | none => exact fun q u b hu hb => ⟨u, hu, hb⟩
    | some sKey =>
        simp only
        cases hsess : findOne db.sessions sKey with
        | none => exact fun q u b hu hb => ⟨u, hu, hb⟩
        | some sd =>
            simp only
            cases hrid : oid req.ratee_id with
            | none =>
                simp only
                exact badgePreserved_of_users_eq (users_insertRating req now db)
            | some rKey =>
                simp only
                exact badgePreserved_trans
                  (badgePreserved_of_users_eq (users_insertRating req now db))
                  (badgePreserved_trans (badgePreserved_updateRateeRating rKey req.score _)
                    (badgePreserved_settleAfterRating sd sKey now _))

/-! ### Further projection lemmas -/

theorem users_applyTeacherInc_ne {tKey q : String} (db : DB) (h : q ≠ tKey) :
    (applyTeacherInc tKey db).users q = db.users q := by
  rw [users_applyTeacherInc, if_neg h]

theorem users_applyLearnerInc_ne {lKey q : String} (db : DB) (h : q ≠ lKey) :
    (applyLearnerInc lKey db).users q = db.users q := by
  rw [users_applyLearnerInc, if_neg h]

theorem coinStats_updateRateeRating (rKey : String) (s : ℤ) (db : DB) (q : String) :
    ((updateRateeRating rKey s db).users q).map coinStats = (db.users q).map coinStats := by
  cases h : db.users rKey with
  | none => rw [updateRateeRating_absent s h]
  | some u =>
      rw [users_updateRateeRating_present s h]
      by_cases hq : q = rKey
      · rw [if_pos hq, hq, h]; rfl
      · rw [if_neg hq]

theorem coinStats_applyBadges (tKey : String) (db : DB) (q : String) :
    ((applyBadges tKey db).users q).map coinStats = (db.users q).map coinStats := by
  cases h : db.users tKey with
  | none => rw [applyBadges_absent h]
  | some t =>
      rw [users_applyBadges_present h]
      by_cases hq : q = tKey
      · rw [if_pos hq, hq, h]; rfl
      · rw [if_neg hq]

theorem coinStats_applyTeacherInc_at (tKey : String) (db : DB) :
    ((applyTeacherInc tKey db).users tKey).map coinStats =
      ((db.users tKey).map coinStats).map (fun p => (p.1 + 10, p.2.1 + 1, p.2.2)) := by
  rw [users_applyTeacherInc, if_pos rfl]
  cases db.users tKey <;> rfl

theorem coinStats_applyLearnerInc_at (lKey : String) (db : DB) :
    ((applyLearnerInc lKey db).users lKey).map coinStats =
      ((db.users lKey).map coinStats).map (fun p => (p.1 - 10, p.2.1, p.2.2 + 1)) := by
  rw [users_applyLearnerInc, if_pos rfl]
  cases db.users lKey <;> rfl

theorem badgesMap_updateRateeRating (rKey : String) (s : ℤ) (db : DB) (q : String) :
    ((updateRateeRating rKey s db).users q).map (fun v => v.badges) =
      (db.users q).map (fun v => v.badges) := by
  cases h : db.users rKey with
  | none => rw [updateRateeRating_absent s h]
  | some u =>
      rw [users_updateRateeRating_present s h]
      by_cases hq : q = rKey
      · rw [if_pos hq, hq, h]; rfl
      · rw [if_neg hq]

theorem badgesMap_applyTeacherInc (tKey : String) (db : DB) (q : String) :
    ((applyTeacherInc tKey db).users q).map (fun v => v.badges) =
      (db.users q).map (fun v => v.badges) := by
  rw [users_applyTeacherInc]
  by_cases hq : q = tKey
  · rw [if_pos hq]; cases db.users q <;> rfl
  · rw [if_neg hq]

theorem badgesMap_applyLearnerInc (lKey : String) (db : DB) (q : String) :
    ((applyLearnerInc lKey db).users q).map (fun v => v.badges) =
      (db.users q).map (fun v => v.badges) := by
  rw [users_applyLearnerInc]
  by_cases hq : q = lKey
  · rw [if_pos hq]; cases db.users q <;> rfl
  · rw [if_neg hq]

/-! ### Read lemmas for the full success-path final state -/

theorem ratingStats_postRatee (req : RatingRequest) (now : Nat) (db : DB)
    (sKey rKey tKey lKey q : String) :
    ((applyBadges tKey (preBadgeState req now db sKey rKey tKey lKey)).users q).map ratingStats =
      ((updateRateeRating rKey req.score (insertRating req now db)).users q).map ratingStats := by
  unfold preBadgeState
  rw [ratingStats_applyBadges, users_completeSession, ratingStats_applyLearnerInc,
    ratingStats_applyTeacherInc]

theorem sessions_success_final (req : RatingRequest) (now : Nat) (db : DB)
    (sKey rKey tKey lKey q : String) :
    (applyBadges tKey (preBadgeState req now db sKey rKey tKey lKey)).sessions q =
      if q = sKey then
        (db.sessions q).map (fun s => { s with status := "completed", updated_at := now })
      else db.sessions q := by
  unfold preBadgeState
  rw [sessions_applyBadges, sessions_completeSession, sessions_applyLearnerInc,
    sessions_applyTeacherInc, sessions_updateRateeRating, sessions_insertRating]

theorem ratings_success_final (req : RatingRequest) (now : Nat) (db : DB)
    (sKey rKey tKey lKey : String) :
    (applyBadges tKey (preBadgeState req now db sKey rKey tKey lKey)).ratings =
      db.ratings ++ [ratingOfRequest req now] := by
  unfold preBadgeState
  rw [ratings_applyBadges, ratings_completeSession, ratings_applyLearnerInc,
    ratings_applyTeacherInc, ratings_updateRateeRating, ratings_insertRating]

theorem coinStats_teacher_final (req : RatingRequest) (now : Nat) (db : DB)
    (sKey rKey tKey lKey : String) (htl : tKey ≠ lKey) :
    ((applyBadges tKey (preBadgeState req now db sKey rKey tKey lKey)).users tKey).map coinStats =
      ((db.users tKey).map coinStats).map (fun p => (p.1 + 10, p.2.1 + 1, p.2.2)) := by
  unfold preBadgeState
  rw [coinStats_applyBadges, users_completeSession, users_applyLearnerInc_ne _ htl,
    coinStats_applyTeacherInc_at, coinStats_updateRateeRating, users_insertRating]

theorem coinStats_learner_final (req : RatingRequest) (now : Nat) (db : DB)
    (sKey rKey tKey lKey : String) (htl : tKey ≠ lKey) :
    ((applyBadges tKey (preBadgeState req now db sKey rKey tKey lKey)).users lKey).map coinStats =
      ((db.users lKey).map coinStats).map (fun p => (p.1 - 10, p.2.1, p.2.2 + 1)) := by
  unfold preBadgeState
  rw [coinStats_applyBadges, users_completeSession, coinStats_applyLearnerInc_at,
    users_applyTeacherInc_ne _ (Ne.symm htl), coinStats_updateRateeRating, users_insertRating]

theorem badgesMap_preBadge (req : RatingRequest) (now : Nat) (db : DB)
    (sKey rKey tKey lKey q : String) :
    ((preBadgeState req now db sKey rKey tKey lKey).users q).map (fun v => v.badges) =
      (db.users q).map (fun v => v.badges) := by
  unfold preBadgeState
  rw [users_completeSession, badgesMap_applyLearnerInc, badgesMap_applyTeacherInc,
    badgesMap_updateRateeRating, users_insertRating]

theorem ratee_stats_final (req : RatingRequest) (now : Nat) (db : DB)
    (sKey rKey tKey lKey : String) (u : UserDoc) (hu : db.users rKey = some u) :
    ((applyBadges tKey (preBadgeState req now db sKey rKey tKey lKey)).users rKey).map ratingStats =
      some ((u.rating_avg * u.rating_count + req.score) / ((u.rating_count : ℚ) + 1),
        u.rating_count + 1) := by
  rw [ratingStats_postRatee]
  rw [users_updateRateeRating_present req.score
    (show (insertRating req now db).users rKey = some u from hu), if_pos rfl]
  simp only [Option.map_some', ratingStats, Prod.mk.injEq]
  push_cast
  ring_nf

theorem ratingCount_updateRateeRating (rKey : String) (s : ℤ) (db : DB) :
    ((updateRateeRating rKey s db).users rKey).map (fun u => u.rating_count) =
      ((db.users rKey).map (fun u => u.rating_count)).map (fun c => c + 1) := by
  cases h : db.users rKey with
  | none => rw [updateRateeRating_absent s h, h]; rfl
  | some u =>
      have h2 := users_updateRateeRating_present s h rKey
      rw [if_pos rfl] at h2
      rw [h2]
      rfl

theorem count_eq_of_ratingStats {x y : Option UserDoc}
    (h : x.map ratingStats = y.map ratingStats) :
    x.map (fun u => u.rating_count) = y.map (fun u => u.rating_count) := by
  cases x <;> cases y <;> simp_all [ratingStats]

theorem ratingCount_success_final (req : RatingRequest) (now : Nat) (db : DB)
    (sKey rKey tKey lKey : String) :
    ((applyBadges tKey (preBadgeState req now db sKey rKey tKey lKey)).users rKey).map
        (fun u => u.rating_count) =
      ((db.users rKey).map (fun u => u.rating_count)).map (fun c => c + 1) := by
  rw [count_eq_of_ratingStats (ratingStats_postRatee req now db sKey rKey tKey lKey rKey),
    ratingCount_updateRateeRating, users_insertRating]

/-! ### The outcome does not depend on the store contents nor on the rater -/

theorem coinsStage_fst (sd : SessionDoc) (db dbQ : DB) :
    (coinsStage sd db).1 = (coinsStage sd dbQ).1 := by
  unfold coinsStage
  by_cases hc : sd.teacher_id ≠ "" ∧ sd.learner_id ≠ ""
  · rw [if_pos hc, if_pos hc]
    cases htid : oid sd.teacher_id <;> cases hlid : oid sd.learner_id <;> rfl
  · rw [if_neg hc, if_neg hc]

theorem badgeCheck_fst (sd : SessionDoc) (db dbQ : DB) :
    (badgeCheck sd db).1 = (badgeCheck sd dbQ).1 := by
  unfold badgeCheck
  by_cases ht : sd.teacher_id ≠ ""
  · rw [if_pos ht, if_pos ht]
    cases htid : oid sd.teacher_id <;> rfl
  · rw [if_neg ht, if_neg ht]

theorem settleAfterRating_fst (sd : SessionDoc) (sKey : String) (now : Nat) (db dbQ : DB) :
    (settleAfterRating sd sKey now db).1 = (settleAfterRating sd sKey now dbQ).1 := by
  unfold settleAfterRating
  cases h1 : coinsStage sd db with
  | mk e1 d1 =>
      cases h2 : coinsStage sd dbQ with
      | mk e2 d2 =>
          have he : e1 = e2 := by
            have hfst := coinsStage_fst sd db dbQ
            rw [h1, h2] at hfst
            exact hfst
          subst he
          cases e1 with
          | none => exact badgeCheck_fst sd _ _
          | some err => rfl

theorem rate_session_settle_eq {req : RatingRequest} {now : Nat} {db : DB}
    {sKey : String} {sd : SessionDoc} {rKey : String}
    (hs : 1 ≤ req.score ∧ req.score ≤ 5) (hsid : oid req.session_id = some sKey)
    (hsess : db.sessions sKey = some sd) (hrid : oid req.ratee_id = some rKey) :
    rate_session req now db =
      settleAfterRating sd sKey now (updateRateeRating rKey req.score (insertRating req now db)) := by
  unfold rate_session
  rw [if_neg (by simp [hs.1, hs.2])]
  simp only [findOne, hsid, hsess, hrid]

/-! ### The claims -/

/-- Claim C1: for every ratee user document with `rating_avg = a` and
`rating_count = c`, submitting a rating with a valid score `s` for an
existing session persists on the ratee document `rating_count = c + 1` and
`rating_avg = (a * c + s) / (c + 1)`; both fields are written by the single
`$set` of `updateRateeRating`, and they survive every later settlement step
(and even a later mid-settlement failure). -/
theorem claim1_ratee_average (req : RatingRequest) (now : Nat) (db : DB)
    (sKey : String) (sd : SessionDoc) (rKey : String) (u : UserDoc)
    (hs : 1 ≤ req.score ∧ req.score ≤ 5)
    (hsid : oid req.session_id = some sKey)
    (hsess : db.sessions sKey = some sd)
    (hrid : oid req.ratee_id = some rKey)
    (hu : db.users rKey = some u) :
    (((rate_session req now db).2).users rKey).map ratingStats =
      some ((u.rating_avg * u.rating_count + req.score) / ((u.rating_count : ℚ) + 1),
        u.rating_count + 1) := by
  rw [rate_session_settle_eq hs hsid hsess hrid]
  rw [ratingStats_settleAfterRating]
  rw [users_updateRateeRating_present req.score
    (show (insertRating req now db).users rKey = some u from hu), if_pos rfl]
  simp only [Option.map_some', ratingStats, Prod.mk.injEq]
  push_cast
  ring_nf

theorem claim1_witness :
    (((rate_session witReq 7 witDB).2).users witKeyR).map ratingStats =
      some ((witRatee.rating_avg * witRatee.rating_count + witReq.score) /
        ((witRatee.rating_count : ℚ) + 1), witRatee.rating_count + 1) :=
  claim1_ratee_average witReq 7 witDB witKeyS witSession witKeyR witRatee
    (by decide) (by decide) (by decide) (by decide) (by decide)

/-- Claim C6: a SubmitRating call whose score lies outside `[1, 5]` fails
with InvalidArgument and leaves the whole store untouched — no rating is
inserted and no user or session document is mutated. -/
theorem claim6_invalid_score (req : RatingRequest) (now : Nat) (db : DB)
    (h : ¬ (1 ≤ req.score ∧ req.score ≤ 5)) :
    rate_session req now db =
      (Except.error (ApiError.invalidArgument "Score must be 1-5"), db) :=
  rate_session_bad_score h

theorem claim6_witness :
    rate_session witBadScoreReq 3 witDB =
      (Except.error (ApiError.invalidArgument "Score must be 1-5"), witDB) :=
  claim6_invalid_score witBadScoreReq 3 witDB (by decide)

/-- Claim C7: a SubmitRating call with a valid score whose well-formed
session id matches no session document fails with NotFound and leaves the
whole store untouched. -/
theorem claim7_session_not_found (req : RatingRequest) (now : Nat) (db : DB)
    (sKey : String)
    (hs : 1 ≤ req.score ∧ req.score ≤ 5)
    (hsid : oid req.session_id = some sKey)
    (h : db.sessions sKey = none) :
    rate_session req now db = (Except.error (ApiError.notFound "Session not found"), db) :=
  rate_session_no_session hs hsid h

theorem claim7_witness :
    rate_session witNoSessionReq 3 witDB =
      (Except.error (ApiError.notFound "Session not found"), witDB) :=
  claim7_session_not_found witNoSessionReq 3 witDB witKeyX
    (by decide) (by decide) (by decide)

/-- Claim C9: across any sequence of settlement calls, every user's badge
set is monotonically non-decreasing: a badge present before the calls is
still present afterwards, whatever the calls do. -/
theorem claim9_badge_monotonic (calls : List (RatingRequest × Nat)) (db : DB)
    (q : String) (u : UserDoc) (b : String)
    (hu : db.users q = some u) (hb : b ∈ u.badges) :
    ∃ v, (runCalls calls db).users q = some v ∧ b ∈ v.badges := by
  have key : ∀ cs : List (RatingRequest × Nat), ∀ d : DB, ∀ w : UserDoc,
      d.users q = some w → b ∈ w.badges →
      ∃ v, (runCalls cs d).users q = some v ∧ b ∈ v.badges := by
    intro cs
    induction cs with
    | nil => exact fun d w h1 h2 => ⟨w, h1, h2⟩
    | cons c rest ih =>
        intro d w h1 h2
        obtain ⟨v, hv, hbv⟩ := badgePreserved_rate_session c.1 c.2 d q w b h1 h2
        exact ih _ _ hv hbv
  exact key calls db u hu hb

theorem claim9_witness :
    ∃ v, (runCalls [(witReq, 1), (witReq, 2)] witDB).users witKeyT = some v ∧
      "Early Bird" ∈ v.badges :=
  claim9_badge_monotonic [(witReq, 1), (witReq, 2)] witDB witKeyT witTeacher "Early Bird"
    (by decide) (by decide)

/-- Claim C2: on a settlement whose session has both participant ids
populated (with well-formed, distinct keys), the teacher document gains
exactly 10 coins and one teaching session and the learner document loses
exactly 10 coins and gains one learning session, whatever their prior
balances (the learner may go negative); the `Option.map` form makes each
increment a no-op when the corresponding user document is absent while the
other still applies. -/
theorem claim2_coin_transfer (req : RatingRequest) (now : Nat) (db : DB)
    (sKey : String) (sd : SessionDoc) (rKey tKey lKey : String)
    (hs : 1 ≤ req.score ∧ req.score ≤ 5)
    (hsid : oid req.session_id = some sKey)
    (hsess : db.sessions sKey = some sd)
    (hrid : oid req.ratee_id = some rKey)
    (ht : sd.teacher_id ≠ "") (hl : sd.learner_id ≠ "")
    (htid : oid sd.teacher_id = some tKey) (hlid : oid sd.learner_id = some lKey)
    (htl : tKey ≠ lKey) :
    (rate_session req now db).1 = Except.ok () ∧
    ((rate_session req now db).2.users tKey).map coinStats =
      ((db.users tKey).map coinStats).map (fun p => (p.1 + 10, p.2.1 + 1, p.2.2)) ∧
    ((rate_session req now db).2.users lKey).map coinStats =
      ((db.users lKey).map coinStats).map (fun p => (p.1 - 10, p.2.1, p.2.2 + 1)) := by
  rw [rate_session_success hs hsid hsess hrid ht hl htid hlid]
  exact ⟨rfl, coinStats_teacher_final req now db sKey rKey tKey lKey htl,
    coinStats_learner_final req now db sKey rKey tKey lKey htl⟩

theorem claim2_witness :
    (rate_session witReq 7 witDB).1 = Except.ok () ∧
    ((rate_session witReq 7 witDB).2.users witKeyT).map coinStats =
      ((witDB.users witKeyT).map coinStats).map (fun p => (p.1 + 10, p.2.1 + 1, p.2.2)) ∧
    ((rate_session witReq 7 witDB).2.users witKeyL).map coinStats =
      ((witDB.users witKeyL).map coinStats).map (fun p => (p.1 - 10, p.2.1, p.2.2 + 1)) :=
  claim2_coin_transfer witReq 7 witDB witKeyS witSession witKeyR witKeyT witKeyL
    (by decide) (by decide) (by decide) (by decide) (by decide) (by decide)
    (by decide) (by decide) (by decide)

/-- Claim C3: at the end of a settlement, the teacher document re-loaded
after the step-4 increments (the `preBadgeState`) gets its badge list
overwritten with exactly the union of its existing badges and the
qualifying labels ("Top Mentor" iff `teaching_sessions ≥ 10`,
"Skill Streak" iff `teaching_sessions + learning_sessions ≥ 5`,
"Helpful Teacher" iff `rating_avg > 4.5`); every other user document is
untouched by the badge step and its badges stay exactly as before the
call. -/
theorem claim3_teacher_badges (req : RatingRequest) (now : Nat) (db : DB)
    (sKey : String) (sd : SessionDoc) (rKey tKey lKey : String) (t : UserDoc)
    (hs : 1 ≤ req.score ∧ req.score ≤ 5)
    (hsid : oid req.session_id = some sKey)
    (hsess : db.sessions sKey = some sd)
    (hrid : oid req.ratee_id = some rKey)
    (ht : sd.teacher_id ≠ "") (hl : sd.learner_id ≠ "")
    (htid : oid sd.teacher_id = some tKey) (hlid : oid sd.learner_id = some lKey)
    (hT : (preBadgeState req now db sKey rKey tKey lKey).users tKey = some t) :
    (rate_session req now db).1 = Except.ok () ∧
    ((rate_session req now db).2).users tKey = some { t with badges := computeBadges t } ∧
    (∀ b, b ∈ computeBadges t ↔
      b ∈ t.badges ∨
      (b = "Top Mentor" ∧ 10 ≤ t.teaching_sessions) ∨
      (b = "Skill Streak" ∧ 5 ≤ t.learning_sessions + t.teaching_sessions) ∨
      (b = "Helpful Teacher" ∧ (4.5 : ℚ) < t.rating_avg)) ∧
    (∀ q, q ≠ tKey → ((rate_session req now db).2).users q =
      (preBadgeState req now db sKey rKey tKey lKey).users q) ∧
    (∀ q, q ≠ tKey → (((rate_session req now db).2).users q).map (fun v => v.badges) =
      (db.users q).map (fun v => v.badges)) := by
  rw [rate_session_success hs hsid hsess hrid ht hl htid hlid]
  refine ⟨rfl, ?_, fun b => mem_computeBadges t b, ?_, ?_⟩
  · rw [users_applyBadges_present hT, if_pos rfl]
  · intro q hq
    rw [users_applyBadges_present hT, if_neg hq]
  · intro q hq
    rw [users_applyBadges_present hT, if_neg hq]
    exact badgesMap_preBadge req now db sKey rKey tKey lKey q

theorem claim3_witness :
    ((rate_session witReq 7 witDB).2).users witKeyT =
      some { witTeacherMid with badges := computeBadges witTeacherMid } :=
  (claim3_teacher_badges witReq 7 witDB witKeyS witSession witKeyR witKeyT witKeyL
    witTeacherMid (by decide) (by decide) (by decide) (by decide) (by decide)
    (by decide) (by decide) (by decide) (by decide)).2.1

/-- Claim C8: a settlement whose (well-formed) ratee id matches no user
document skips the rating-average update silently — no user's rating
statistics change at all — while the rating insert, the coin increments,
and the session completion still execute and the call returns success. -/
theorem claim8_missing_ratee_skip (req : RatingRequest) (now : Nat) (db : DB)
    (sKey : String) (sd : SessionDoc) (rKey tKey lKey : String)
    (hs : 1 ≤ req.score ∧ req.score ≤ 5)
    (hsid : oid req.session_id = some sKey)
    (hsess : db.sessions sKey = some sd)
    (hrid : oid req.ratee_id = some rKey)
    (ht : sd.teacher_id ≠ "") (hl : sd.learner_id ≠ "")
    (htid : oid sd.teacher_id = some tKey) (hlid : oid sd.learner_id = some lKey)
    (htl : tKey ≠ lKey)
    (hNone : db.users rKey = none) :
    (rate_session req now db).1 = Except.ok () ∧
    (∀ q, (((rate_session req now db).2).users q).map ratingStats =
      (db.users q).map ratingStats) ∧
    ((rate_session req now db).2).sessions sKey =
      some { sd with status := "completed", updated_at := now } ∧
    ((rate_session req now db).2).ratings = db.ratings ++ [ratingOfRequest req now] ∧
    ((rate_session req now db).2.users tKey).map coinStats =
      ((db.users tKey).map coinStats).map (fun p => (p.1 + 10, p.2.1 + 1, p.2.2)) := by
  rw [rate_session_success hs hsid hsess hrid ht hl htid hlid]
  refine ⟨rfl, ?_, ?_, ratings_success_final req now db sKey rKey tKey lKey,
    coinStats_teacher_final req now db sKey rKey tKey lKey htl⟩
  · intro q
    rw [ratingStats_postRatee]
    rw [updateRateeRating_absent req.score
      (show (insertRating req now db).users rKey = none from hNone)]
    rw [users_insertRating]
  · rw [sessions_success_final, if_pos rfl, hsess]
    rfl

theorem claim8_witness :
    (rate_session witReqNoRatee 7 witDB).1 = Except.ok () ∧
    ((rate_session witReqNoRatee 7 witDB).2).sessions witKeyS =
      some { witSession with status := "completed", updated_at := 7 } := by
  have h := claim8_missing_ratee_skip witReqNoRatee 7 witDB witKeyS witSession
    witKeyX witKeyT witKeyL (by decide) (by decide) (by decide) (by decide)
    (by decide) (by decide) (by decide) (by decide) (by decide) (by decide)
  exact ⟨h.1, h.2.2.1⟩

/-- Claim C10: `rate_session` never checks that the rater or the ratee is a
participant of the referenced session: with no hypothesis linking
`req.rater_id` or `req.ratee_id` to the session's teacher or learner, the
call succeeds, inserts the rating, updates the (possibly unrelated) ratee's
average, and still applies the coin and counter effects to the session's own
teacher and learner. -/
theorem claim10_no_participant_check (req : RatingRequest) (now : Nat) (db : DB)
    (sKey : String) (sd : SessionDoc) (rKey tKey lKey : String) (u : UserDoc)
    (hs : 1 ≤ req.score ∧ req.score ≤ 5)
    (hsid : oid req.session_id = some sKey)
    (hsess : db.sessions sKey = some sd)
    (hrid : oid req.ratee_id = some rKey)
    (ht : sd.teacher_id ≠ "") (hl : sd.learner_id ≠ "")
    (htid : oid sd.teacher_id = some tKey) (hlid : oid sd.learner_id = some lKey)
    (htl : tKey ≠ lKey)
    (hu : db.users rKey = some u) :
    (rate_session req now db).1 = Except.ok () ∧
    ((rate_session req now db).2).ratings = db.ratings ++ [ratingOfRequest req now] ∧
    (((rate_session req now db).2).users rKey).map ratingStats =
      some ((u.rating_avg * u.rating_count + req.score) / ((u.rating_count : ℚ) + 1),
        u.rating_count + 1) ∧
    ((rate_session req now db).2.users tKey).map coinStats =
      ((db.users tKey).map coinStats).map (fun p => (p.1 + 10, p.2.1 + 1, p.2.2)) ∧
    ((rate_session req now db).2.users lKey).map coinStats =
      ((db.users lKey).map coinStats).map (fun p => (p.1 - 10, p.2.1, p.2.2 + 1)) := by
  rw [rate_session_success hs hsid hsess hrid ht hl htid hlid]
  exact ⟨rfl, ratings_success_final req now db sKey rKey tKey lKey,
    ratee_stats_final req now db sKey rKey tKey lKey u hu,
    coinStats_teacher_final req now db sKey rKey tKey lKey htl,
    coinStats_learner_final req now db sKey rKey tKey lKey htl⟩

theorem claim10_witness :
    (rate_session witReq 7 witDB).1 = Except.ok () ∧
    ((rate_session witReq 7 witDB).2).ratings = witDB.ratings ++ [ratingOfRequest witReq 7] ∧
    (((rate_session witReq 7 witDB).2).users witKeyR).map ratingStats =
      some ((witRatee.rating_avg * witRatee.rating_count + witReq.score) /
        ((witRatee.rating_count : ℚ) + 1), witRatee.rating_count + 1) ∧
    ((rate_session witReq 7 witDB).2.users witKeyT).map coinStats =
      ((witDB.users witKeyT).map coinStats).map (fun p => (p.1 + 10, p.2.1 + 1, p.2.2)) ∧
    ((rate_session witReq 7 witDB).2.users witKeyL).map coinStats =
      ((witDB.users witKeyL).map coinStats).map (fun p => (p.1 - 10, p.2.1, p.2.2 + 1)) :=
  claim10_no_participant_check witReq 7 witDB witKeyS witSession witKeyR witKeyT witKeyL
    witRatee (by decide) (by decide) (by decide) (by decide) (by decide) (by decide)
    (by decide) (by decide) (by decide) (by decide)

/-- Claim C4: every settlement on an existing session sets the session's
status to "completed" and refreshes `updated_at` unconditionally, whatever
the current status; and a second settlement on the already-completed session
applies the full coin, counter and rating-count effects again — coins move
by 20, session counters by 2 and the ratee's rating count by 2 after two
calls, with no idempotence guard. -/
theorem claim4_recompletion_cumulative (req : RatingRequest) (now1 now2 : Nat) (db : DB)
    (sKey : String) (sd : SessionDoc) (rKey tKey lKey : String)
    (hs : 1 ≤ req.score ∧ req.score ≤ 5)
    (hsid : oid req.session_id = some sKey)
    (hsess : db.sessions sKey = some sd)
    (hrid : oid req.ratee_id = some rKey)
    (ht : sd.teacher_id ≠ "") (hl : sd.learner_id ≠ "")
    (htid : oid sd.teacher_id = some tKey) (hlid : oid sd.learner_id = some lKey)
    (htl : tKey ≠ lKey) :
    (rate_session req now1 db).1 = Except.ok () ∧
    ((rate_session req now1 db).2).sessions sKey =
      some { sd with status := "completed", updated_at := now1 } ∧
    (rate_session req now2 (rate_session req now1 db).2).1 = Except.ok () ∧
    ((rate_session req now2 (rate_session req now1 db).2).2).sessions sKey =
      some { sd with status := "completed", updated_at := now2 } ∧
    ((rate_session req now2 (rate_session req now1 db).2).2.users tKey).map coinStats =
      ((db.users tKey).map coinStats).map (fun p => (p.1 + 20, p.2.1 + 2, p.2.2)) ∧
    ((rate_session req now2 (rate_session req now1 db).2).2.users lKey).map coinStats =
      ((db.users lKey).map coinStats).map (fun p => (p.1 - 20, p.2.1, p.2.2 + 2)) ∧
    ((rate_session req now2 (rate_session req now1 db).2).2.users rKey).map
        (fun u => u.rating_count) =
      ((db.users rKey).map (fun u => u.rating_count)).map (fun c => c + 2) := by
  have h1 := @rate_session_success req now1 db sKey sd rKey tKey lKey
    hs hsid hsess hrid ht hl htid hlid
  have hsess2 : (applyBadges tKey (preBadgeState req now1 db sKey rKey tKey lKey)).sessions sKey =
      some { sd with status := "completed", updated_at := now1 } := by
    rw [sessions_success_final, if_pos rfl, hsess]
    rfl
  have h2 := @rate_session_success req now2
    (applyBadges tKey (preBadgeState req now1 db sKey rKey tKey lKey)) sKey
    { sd with status := "completed", updated_at := now1 } rKey tKey lKey
    hs hsid hsess2 hrid ht hl htid hlid
  refine ⟨?_, ?_, ?_, ?_, ?_, ?_, ?_⟩
  · rw [h1]
  · rw [h1]
    exact hsess2
  · rw [h1, h2]
  · rw [h1, h2]
    rw [sessions_success_final, if_pos rfl, hsess2]
    rfl
  · rw [h1, h2]
    rw [coinStats_teacher_final req now2
      (applyBadges tKey (preBadgeState req now1 db sKey rKey tKey lKey)) sKey rKey tKey lKey htl]
    rw [coinStats_teacher_final req now1 db sKey rKey tKey lKey htl]
    cases db.users tKey with
    | none => rfl
    | some v => simp only [Option.map_some', coinStats, Option.some.injEq, Prod.mk.injEq, and_true, true_and]; omega
  · rw [h1, h2]
    rw [coinStats_learner_final req now2
      (applyBadges tKey (preBadgeState req now1 db sKey rKey tKey lKey)) sKey rKey tKey lKey htl]
    rw [coinStats_learner_final req now1 db sKey rKey tKey lKey htl]
    cases db.users lKey with
    | none => rfl
    | some v => simp only [Option.map_some', coinStats, Option.some.injEq, Prod.mk.injEq, and_true, true_and]; omega
  · rw [h1, h2]
    rw [ratingCount_success_final req now2
      (applyBadges tKey (preBadgeState req now1 db sKey rKey tKey lKey)) sKey rKey tKey lKey]
    rw [ratingCount_success_final req now1 db sKey rKey tKey lKey]
    cases db.users rKey with
    | none => rfl
    | some v => simp only [Option.map_some', Option.some.injEq]; omega

theorem claim4_witness :
    ((rate_session witReq 9 (rate_session witReq 7 witDB).2).2).sessions witKeyS =
      some { witSession with status := "completed", updated_at := 9 } ∧
    ((rate_session witReq 9 (rate_session witReq 7 witDB).2).2.users witKeyT).map coinStats =
      ((witDB.users witKeyT).map coinStats).map (fun p => (p.1 + 20, p.2.1 + 2, p.2.2)) := by
  have h := claim4_recompletion_cumulative witReq 7 9 witDB witKeyS witSession
    witKeyR witKeyT witKeyL (by decide) (by decide) (by decide) (by decide)
    (by decide) (by decide) (by decide) (by decide) (by decide)
  exact ⟨h.2.2.2.1, h.2.2.2.2.1⟩

/-- Claim C5 counterexample: `witBadRaterReq` carries a malformed user
identifier (its rater id is not a well-formed ObjectId string), yet the
call does not fail with InvalidArgument — it returns success, because
`rate_session` never validates `rater_id`. -/
theorem claim5_counterexample :
    validObjectId witBadRaterReq.rater_id = false ∧
    (rate_session witBadRaterReq 0 witEmptyUsersDB).1 = Except.ok () := by
  exact ⟨by decide, by decide⟩

/-- Claim C5 (amended): a malformed `session_id` fails with InvalidArgument
before any lookup and with no side effects; a malformed `ratee_id` fails
with InvalidArgument but only after the session lookup and the rating
insert, so the Rating document is already persisted; and `rater_id` is
never validated at all — the call's outcome does not depend on it. -/
theorem claim5_amended_validation (req : RatingRequest) (now : Nat) (db : DB) :
    ((1 ≤ req.score ∧ req.score ≤ 5) → oid req.session_id = none →
      rate_session req now db =
        (Except.error (ApiError.invalidArgument "Invalid object id"), db)) ∧
    (∀ sKey sd, (1 ≤ req.score ∧ req.score ≤ 5) → oid req.session_id = some sKey →
      db.sessions sKey = some sd → oid req.ratee_id = none →
      rate_session req now db =
        (Except.error (ApiError.invalidArgument "Invalid object id"),
          insertRating req now db)) ∧
    (∀ r1 r2, (rate_session { req with rater_id := r1 } now db).1 =
      (rate_session { req with rater_id := r2 } now db).1) := by
  refine ⟨fun hs h => rate_session_bad_session_id hs h,
    fun sKey sd hs hsid hsess hrid => rate_session_bad_ratee_id hs hsid hsess hrid, ?_⟩
  intro r1 r2
  by_cases hs : 1 ≤ req.score ∧ req.score ≤ 5
  · cases hsid : oid req.session_id with
    | none =>
        have e1 := @rate_session_bad_session_id { req with rater_id := r1 } now db hs hsid
        have e2 := @rate_session_bad_session_id { req with rater_id := r2 } now db hs hsid
        rw [e1, e2]
    | some sKey =>
        cases hsess : db.sessions sKey with
        | none =>
            have e1 := @rate_session_no_session { req with rater_id := r1 } now db sKey
              hs hsid hsess
            have e2 := @rate_session_no_session { req with rater_id := r2 } now db sKey
              hs hsid hsess
            rw [e1, e2]
        | some sd =>
            cases hrid : oid req.ratee_id with
            | none =>
                have e1 := @rate_session_bad_ratee_id { req with rater_id := r1 } now db
                  sKey sd hs hsid hsess hrid
                have e2 := @rate_session_bad_ratee_id { req with rater_id := r2 } now db
                  sKey sd hs hsid hsess hrid
                rw [e1, e2]
            | some rKey =>
                have e1 := @rate_session_settle_eq { req with rater_id := r1 } now db
                  sKey sd rKey hs hsid hsess hrid
                have e2 := @rate_session_settle_eq { req with rater_id := r2 } now db
                  sKey sd rKey hs hsid hsess hrid
                rw [e1, e2]
                exact settleAfterRating_fst sd sKey now _ _
  · have e1 := @rate_session_bad_score { req with rater_id := r1 } now db hs
    have e2 := @rate_session_bad_score { req with rater_id := r2 } now db hs
    rw [e1, e2]

theorem claim5_witness :
    rate_session witBadRateeReq 0 witDB =
      (Except.error (ApiError.invalidArgument "Invalid object id"),
        insertRating witBadRateeReq 0 witDB) :=
  (claim5_amended_validation witBadRateeReq 0 witDB).2.1 witKeyS witSession
    (by decide) (by decide) (by decide) (by decide)

end SkillSwap
